import Mathlib

/-!
Verification of the cutout-extraction core of VLASS_Tools
(src/local_cutouts.py, function make_multiple_cutouts, lines 37-78).

Shallow embedding. The FITS loading, WCS projection and plotting are
external collaborators (spec section 6); the embedded core is the loop
over already-projected pixel centers:

  half_size = size // 2
  for x, y in zip(x_pix, y_pix):
      x, y = int(round(x)), int(round(y))
      cutout = np.full((size, size), np.nan)
      x_start = max(0, x - half_size)
      x_end   = min(array.shape[1], x + half_size + 1)
      y_start = max(0, y - half_size)
      y_end   = min(array.shape[0], y + half_size + 1)
      cutout_x_start = max(0, half_size - x)
      cutout_x_end   = cutout_x_start + (x_end - x_start)
      cutout_y_start = max(0, half_size - y)
      cutout_y_end   = cutout_y_start + (y_end - y_start)
      if x_end > x_start and y_end > y_start:
          cutout_region = cutout[cutout_y_start:cutout_y_end, cutout_x_start:cutout_x_end]
          array_region  = array[y_start:y_end, x_start:x_end]
          min_y = min(cutout_region.shape[0], array_region.shape[0])
          min_x = min(cutout_region.shape[1], array_region.shape[1])
          cutout_region[:min_y, :min_x] = array_region[:min_y, :min_x]
      cutouts.append(cutout)

Modelling choices:
- Raster samples are rationals; the np.nan sentinel that fills a cutout is
  modelled by Option: a cutout cell is none (sentinel) or some v (copied
  raster sample).
- Python float center coordinates are modelled by PyFloat: a finite
  rational, or one of the non-finite values nan, inf, -inf.  Python round
  on a finite float is round-half-to-even (pyRound below); round of nan
  raises ValueError and round of an infinity raises OverflowError, so
  rounding returns Except.
- np.full((size, size), nan) raises ValueError for negative size, hence
  the size < 0 check in processCenter, placed after the rounding exactly
  as line 47 follows line 44 in the source.
- numpy basic slicing a[i:j] with 0 <= i <= j clamps both bounds to
  [0, len a]; the in-place assignment through the cutout_region view is
  expressed element-wise: cell (r, c) of the finished cutout holds the
  copied sample exactly when (r, c) lies in the written rectangle
  (cutoutEntry below), and stays the sentinel otherwise.
- The Python loop appends one cutout per center and an exception aborts
  the whole call with no partial result visible to the caller; mapExcept
  is that sequential accumulation.
-/

/-- A 2D raster: height x width grid of real-valued samples.
Row r, column c carries sample data r c; only indices with
r < height and c < width are meaningful. -/
structure Raster where
  height : ℕ
  width : ℕ
  data : ℕ → ℕ → ℚ

/-- A Python float as seen by the extraction loop: finite, or non-finite. -/
inductive PyFloat where
  | finite (q : ℚ)
  | nan
  | inf
  | ninf
deriving DecidableEq

/-- Whether a PyFloat is finite. -/
def PyFloat.isFinite : PyFloat → Bool
  | .finite _ => true
  | _ => false

/-- Python round(q) for a finite value: round half to even, the
float.__round__ behaviour used at line 44 of the source.
Expressed on the exact rational value through its reduced fraction:
the floor is q.num / q.den and the fractional part (q.num % q.den) / q.den
is compared with one half by comparing 2 * (q.num % q.den) with q.den. -/
def pyRound (q : ℚ) : ℤ :=
  let f : ℤ := q.num / (q.den : ℤ)
  let t : ℤ := 2 * (q.num % (q.den : ℤ))
  if t < (q.den : ℤ) then f
  else if (q.den : ℤ) < t then f + 1
  else if f % 2 = 0 then f else f + 1

/-- int(round(x)) at line 44: succeeds with the half-even rounding on a
finite float; round raises ValueError on nan and OverflowError on an
infinity, so the whole call fails there. -/
def roundPy : PyFloat → Except String ℤ
  | .finite q => .ok (pyRound q)
  | .nan => .error "cannot convert float NaN to integer"
  | .inf => .error "cannot convert float infinity to integer"
  | .ninf => .error "cannot convert float infinity to integer"

/-- Total variant of the rounding for centers already known finite. -/
def pyRoundF : PyFloat → ℤ
  | .finite q => pyRound q
  | _ => 0

/-- Value of cell (r, c) of the finished cutout for rounded center
(xi, yi): none is the np.nan sentinel, some v a copied raster sample.
Mirrors lines 47-72 of the source; vys/vye/vxs/vxe are the numpy
slice-clamped bounds of the cutout_region view, and min_y/min_x the
defensive minimum-shape clamp of lines 68-69. -/
def cutoutEntry (A : Raster) (size : ℕ) (xi yi : ℤ) (r c : ℕ) : Option ℚ :=
  let half : ℤ := (size : ℤ) / 2
  let x_start : ℤ := max 0 (xi - half)
  let x_end : ℤ := min (A.width : ℤ) (xi + half + 1)
  let y_start : ℤ := max 0 (yi - half)
  let y_end : ℤ := min (A.height : ℤ) (yi + half + 1)
  let cutout_x_start : ℤ := max 0 (half - xi)
  let cutout_x_end : ℤ := cutout_x_start + (x_end - x_start)
  let cutout_y_start : ℤ := max 0 (half - yi)
  let cutout_y_end : ℤ := cutout_y_start + (y_end - y_start)
  if x_end > x_start ∧ y_end > y_start then
    let vys : ℤ := min cutout_y_start (size : ℤ)
    let vye : ℤ := min cutout_y_end (size : ℤ)
    let vxs : ℤ := min cutout_x_start (size : ℤ)
    let vxe : ℤ := min cutout_x_end (size : ℤ)
    let min_y : ℤ := min (vye - vys) (y_end - y_start)
    let min_x : ℤ := min (vxe - vxs) (x_end - x_start)
    if vys ≤ (r : ℤ) ∧ (r : ℤ) < vys + min_y ∧ vxs ≤ (c : ℤ) ∧ (c : ℤ) < vxs + min_x then
      some (A.data (y_start + ((r : ℤ) - vys)).toNat (x_start + ((c : ℤ) - vxs)).toNat)
    else none
  else none

/-- Variant of cutoutEntry without the defensive minimum-shape clamp of
lines 67-69: the copy writes the whole cutout_region view (rows vys to
vye, columns vxs to vxe) instead of its first min_y rows and min_x
columns.  Used to state that the clamp never changes which elements are
copied. -/
def cutoutEntryNoMinClamp (A : Raster) (size : ℕ) (xi yi : ℤ) (r c : ℕ) : Option ℚ :=
  let half : ℤ := (size : ℤ) / 2
  let x_start : ℤ := max 0 (xi - half)
  let x_end : ℤ := min (A.width : ℤ) (xi + half + 1)
  let y_start : ℤ := max 0 (yi - half)
  let y_end : ℤ := min (A.height : ℤ) (yi + half + 1)
  let cutout_x_start : ℤ := max 0 (half - xi)
  let cutout_x_end : ℤ := cutout_x_start + (x_end - x_start)
  let cutout_y_start : ℤ := max 0 (half - yi)
  let cutout_y_end : ℤ := cutout_y_start + (y_end - y_start)
  if x_end > x_start ∧ y_end > y_start then
    let vys : ℤ := min cutout_y_start (size : ℤ)
    let vye : ℤ := min cutout_y_end (size : ℤ)
    let vxs : ℤ := min cutout_x_start (size : ℤ)
    let vxe : ℤ := min cutout_x_end (size : ℤ)
    if vys ≤ (r : ℤ) ∧ (r : ℤ) < vye ∧ vxs ≤ (c : ℤ) ∧ (c : ℤ) < vxe then
      some (A.data (y_start + ((r : ℤ) - vys)).toNat (x_start + ((c : ℤ) - vxs)).toNat)
    else none
  else none

/-- The finished size x size cutout grid for rounded center (xi, yi):
row-major list of rows, cell (r, c) given by cutoutEntry. -/
def cutoutGrid (A : Raster) (size : ℕ) (xi yi : ℤ) : List (List (Option ℚ)) :=
  (List.range size).map fun r => (List.range size).map fun c => cutoutEntry A size xi yi r c

/-- One iteration of the loop over centers (lines 42-75): round both
coordinates (x first), allocate the sentinel grid (ValueError for a
negative size), then fill it. -/
def processCenter (A : Raster) (size : ℤ) (p : PyFloat × PyFloat) : Except String (List (List (Option ℚ))) :=
  match roundPy p.1 with
  | .error e => .error e
  | .ok xi =>
    match roundPy p.2 with
    | .error e => .error e
    | .ok yi =>
      if size < 0 then .error "negative dimensions are not allowed"
      else .ok (cutoutGrid A size.toNat xi yi)

/-- Sequential accumulation of the loop: one result per element, and the
first exception aborts the whole call with no partial list. -/
def mapExcept (f : α → Except ε β) : List α → Except ε (List β)
  | [] => .ok []
  | a :: as =>
    match f a with
    | .error e => .error e
    | .ok b =>
      match mapExcept f as with
      | .error e => .error e
      | .ok bs => .ok (b :: bs)

/-- make_multiple_cutouts restricted to its algorithmic core: the raster,
the already-projected pixel centers, and the window size. -/
def makeMultipleCutouts (A : Raster) (centers : List (PyFloat × PyFloat)) (size : ℤ) :
    Except String (List (List (List (Option ℚ)))) :=
  mapExcept (processCenter A size) centers

/-- Cell (r, c) of a cutout grid, through the list structure. -/
def gridEntry (g : List (List (Option ℚ))) (r c : ℕ) : Option (Option ℚ) :=
  g[r]?.bind fun row => row[c]?

/-- The 5x5 test raster holding 0..24 row-major. -/
def raster5 : Raster := ⟨5, 5, fun r c => ((5 * r + c : ℕ) : ℚ)⟩

/-- A degenerate raster with zero rows. -/
def rasterZeroRows : Raster := ⟨0, 5, fun _ _ => 0⟩

/-! ## Helper lemmas -/

lemma data_congr (A : Raster) {a b a' b' : ℤ} (h1 : a = a') (h2 : b = b') :
    some (A.data a.toNat b.toNat) = some (A.data a'.toNat b'.toNat) := by rw [h1, h2]

set_option maxHeartbeats 1200000 in
/-- Master characterization of the copy of lines 50-72: for any window
size, cell (r, c) of the finished cutout holds the raster sample at row
yi - size / 2 + r, column xi - size / 2 + c exactly when that index is
valid, and the sentinel otherwise. -/
lemma cutoutEntry_char (A : Raster) (size : ℕ) (xi yi : ℤ) (r c : ℕ)
    (hr : r < size) (hc : c < size) :
    cutoutEntry A size xi yi r c =
      if 0 ≤ yi - (size : ℤ) / 2 + r ∧ yi - (size : ℤ) / 2 + r < A.height ∧
         0 ≤ xi - (size : ℤ) / 2 + c ∧ xi - (size : ℤ) / 2 + c < A.width then
        some (A.data (yi - (size : ℤ) / 2 + r).toNat (xi - (size : ℤ) / 2 + c).toNat)
      else none := by
  simp only [cutoutEntry]
  split_ifs <;> first
    | rfl
    | (exact data_congr A (by omega) (by omega))
    | omega

lemma cutoutGrid_length (A : Raster) (size : ℕ) (xi yi : ℤ) :
    (cutoutGrid A size xi yi).length = size := by
  simp [cutoutGrid]

lemma cutoutGrid_row_length (A : Raster) (size : ℕ) (xi yi : ℤ)
    (row : List (Option ℚ)) (hrow : row ∈ cutoutGrid A size xi yi) :
    row.length = size := by
  simp only [cutoutGrid, List.mem_map] at hrow
  obtain ⟨r, -, hr⟩ := hrow
  simp [← hr]

lemma cutoutGrid_entry (A : Raster) (size : ℕ) (xi yi : ℤ) (r c : ℕ)
    (hr : r < size) (hc : c < size) :
    gridEntry (cutoutGrid A size xi yi) r c = some (cutoutEntry A size xi yi r c) := by
  simp [gridEntry, cutoutGrid, List.getElem?_map, List.getElem?_range, hr, hc]

lemma processCenter_finite (A : Raster) (size : ℤ) (qx qy : ℚ) :
    processCenter A size (.finite qx, .finite qy) =
      if size < 0 then .error "negative dimensions are not allowed"
      else .ok (cutoutGrid A size.toNat (pyRound qx) (pyRound qy)) := rfl

lemma mapExcept_ok_of (f : α → Except ε β) (g : α → β) (l : List α)
    (h : ∀ a ∈ l, f a = .ok (g a)) : mapExcept f l = .ok (l.map g) := by
  induction l with
  | nil => rfl
  | cons a as ih =>
    have ha : f a = .ok (g a) := h a (List.mem_cons_self a as)
    have htail : mapExcept f as = .ok (as.map g) := ih fun x hx => h x (List.mem_cons_of_mem a hx)
    simp [mapExcept, ha, htail]

lemma mapExcept_error_of (f : α → Except ε β) (l : List α)
    (h : ∃ a ∈ l, ∀ b, f a ≠ .ok b) : ∃ e, mapExcept f l = .error e := by
  induction l with
  | nil => simp at h
  | cons a as ih =>
    by_cases ha : ∀ b, f a ≠ .ok b
    · rcases hfa : f a with e | b
      · exact ⟨e, by simp [mapExcept, hfa]⟩
      · exact absurd hfa (ha b)
    · push_neg at ha
      obtain ⟨b, hb⟩ := ha
      obtain ⟨x, hx, hxf⟩ := h
      rcases List.mem_cons.mp hx with hxa | hxas
      · exact absurd hb (hxa ▸ hxf b)
      · obtain ⟨e, he⟩ := ih ⟨x, hxas, hxf⟩
        exact ⟨e, by simp [mapExcept, hb, he]⟩

/-- The rounded value is the floor when the fractional part is below one
half and the floor plus one when above; at an exact half it is whichever
of the two is even. -/
lemma pyRound_fract_char (q : ℚ) :
    pyRound q =
      if Int.fract q < 1/2 then ⌊q⌋
      else if 1/2 < Int.fract q then ⌊q⌋ + 1
      else if ⌊q⌋ % 2 = 0 then ⌊q⌋ else ⌊q⌋ + 1 := by
  have hdpos : (0 : ℤ) < (q.den : ℤ) := by exact_mod_cast q.den_pos
  have hdq : (0 : ℚ) < (q.den : ℚ) := by exact_mod_cast q.den_pos
  have hfloor : ⌊q⌋ = q.num / (q.den : ℤ) := Rat.floor_def
  have hq : ((q.num : ℚ)) / ((q.den : ℚ)) = q := Rat.num_div_den q
  have hden : ((q.den : ℚ)) ≠ 0 := ne_of_gt hdq
  have hnum : (q.num : ℚ) = q * (q.den : ℚ) := (div_eq_iff hden).mp hq
  have hfract : Int.fract q = ((q.num % (q.den : ℤ) : ℤ) : ℚ) / ((q.den : ℤ) : ℚ) := by
    rw [Int.fract, hfloor, Int.emod_def]
    field_simp
    linarith [hnum]
  have hlt : Int.fract q < 1/2 ↔ 2 * (q.num % (q.den : ℤ)) < (q.den : ℤ) := by
    rw [hfract, div_lt_div_iff (by exact_mod_cast hdpos) (by norm_num : (0:ℚ) < 2)]
    rw [one_mul]
    rw [show ((q.num % (q.den : ℤ) : ℤ) : ℚ) * 2 = ((2 * (q.num % (q.den : ℤ)) : ℤ) : ℚ) by
      push_cast; ring]
    exact_mod_cast Iff.rfl
  have hgt : 1/2 < Int.fract q ↔ (q.den : ℤ) < 2 * (q.num % (q.den : ℤ)) := by
    rw [hfract, div_lt_div_iff (by norm_num : (0:ℚ) < 2) (by exact_mod_cast hdpos)]
    rw [one_mul]
    rw [show ((q.num % (q.den : ℤ) : ℤ) : ℚ) * 2 = ((2 * (q.num % (q.den : ℤ)) : ℤ) : ℚ) by
      push_cast; ring]
    exact_mod_cast Iff.rfl
  simp only [pyRound, ← hfloor]
  rcases lt_trichotomy (2 * (q.num % (q.den : ℤ))) ((q.den : ℤ)) with h | h | h
  · rw [if_pos h, if_pos (hlt.mpr h)]
  · have hf : ¬ Int.fract q < 1/2 := by rw [hlt]; omega
    have hg : ¬ 1/2 < Int.fract q := by rw [hgt]; omega
    rw [if_neg (by omega), if_neg (by omega), if_neg hf, if_neg hg]
  · have hf : ¬ Int.fract q < 1/2 := by rw [hlt]; omega
    rw [if_neg (by omega), if_pos h, if_neg hf, if_pos (hgt.mpr h)]

/-- pyRound is a nearest integer: the distance from q to it is at most
one half. -/
lemma pyRound_nearest (q : ℚ) : |q - (pyRound q : ℚ)| ≤ 1/2 := by
  have hfr : Int.fract q = q - ⌊q⌋ := rfl
  have h0 := Int.fract_nonneg q
  have h1 := Int.fract_lt_one q
  rw [pyRound_fract_char]
  split_ifs with ha hb hc <;> rw [abs_le] <;> constructor <;> push_cast <;>
    linarith [hfr]

/-- At an exact half-integer the rounding goes to the even neighbour. -/
lemma pyRound_tie (k : ℤ) :
    pyRound ((k : ℚ) + 1/2) = if k % 2 = 0 then k else k + 1 := by
  have hhalf : ⌊(1/2 : ℚ)⌋ = 0 := by norm_num
  have hfl : ⌊(k : ℚ) + 1/2⌋ = k := by rw [Int.floor_int_add, hhalf, add_zero]
  have hfr : Int.fract ((k : ℚ) + 1/2) = 1/2 := by
    rw [Int.fract_int_add]
    show (1/2 : ℚ) - (⌊(1/2 : ℚ)⌋ : ℚ) = 1/2
    rw [hhalf]
    norm_num
  rw [pyRound_fract_char, hfr, hfl]
  norm_num

lemma roundPy_finite (p : PyFloat) (hp : p.isFinite = true) :
    roundPy p = .ok (pyRoundF p) := by
  cases p <;> simp [PyFloat.isFinite, roundPy, pyRoundF] at hp ⊢

lemma processCenter_ok (A : Raster) (size : ℤ) (p : PyFloat × PyFloat)
    (hp1 : p.1.isFinite = true) (hp2 : p.2.isFinite = true) (hs : 0 ≤ size) :
    processCenter A size p = .ok (cutoutGrid A size.toNat (pyRoundF p.1) (pyRoundF p.2)) := by
  obtain ⟨a, b⟩ := p
  simp only [processCenter, roundPy_finite a hp1, roundPy_finite b hp2]
  rw [if_neg (by omega)]

lemma processCenter_negSize (A : Raster) (size : ℤ) (p : PyFloat × PyFloat)
    (hp1 : p.1.isFinite = true) (hp2 : p.2.isFinite = true) (hs : size < 0) :
    processCenter A size p = .error "negative dimensions are not allowed" := by
  obtain ⟨a, b⟩ := p
  simp only [processCenter, roundPy_finite a hp1, roundPy_finite b hp2]
  rw [if_pos hs]

lemma processCenter_nonfinite (A : Raster) (size : ℤ) (p : PyFloat × PyFloat)
    (hp : p.1.isFinite = false ∨ p.2.isFinite = false) :
    ∀ g, processCenter A size p ≠ .ok g := by
  intro g
  obtain ⟨a, b⟩ := p
  rcases hp with hp | hp <;>
    cases a <;> cases b <;>
    simp_all [PyFloat.isFinite, processCenter, roundPy]

set_option maxHeartbeats 1200000 in
/-- For an odd size the minimum-shape clamp of lines 67-69 is a no-op:
the copy with and without it writes the same cells with the same values. -/
lemma cutoutEntry_eq_noMinClamp (A : Raster) (size : ℕ) (hodd : size % 2 = 1)
    (xi yi : ℤ) (r c : ℕ) :
    cutoutEntry A size xi yi r c = cutoutEntryNoMinClamp A size xi yi r c := by
  simp only [cutoutEntry, cutoutEntryNoMinClamp]
  split_ifs <;> first
    | rfl
    | (exact data_congr A (by omega) (by omega))
    | omega

/-- For any nonnegative window size and finite centers the batch call
succeeds with one size x size cutout per center, in order. -/
lemma makeMultiple_ok_shapes (A : Raster) (size : ℕ) (centers : List (PyFloat × PyFloat))
    (hfin : ∀ p ∈ centers, p.1.isFinite = true ∧ p.2.isFinite = true) :
    ∃ batch, makeMultipleCutouts A centers (size : ℤ) = .ok batch ∧
      batch.length = centers.length ∧
      ∀ g ∈ batch, g.length = size ∧ ∀ row ∈ g, row.length = size := by
  refine ⟨centers.map fun p => cutoutGrid A size (pyRoundF p.1) (pyRoundF p.2), ?_, by simp, ?_⟩
  · have h := mapExcept_ok_of (processCenter A (size : ℤ))
      (fun p => cutoutGrid A size (pyRoundF p.1) (pyRoundF p.2)) centers ?_
    · exact h
    · intro p hp
      rw [processCenter_ok A (size : ℤ) p (hfin p hp).1 (hfin p hp).2 (by omega)]
      rw [Int.toNat_natCast]
  · intro g hg
    simp only [List.mem_map] at hg
    obtain ⟨p, -, rfl⟩ := hg
    exact ⟨cutoutGrid_length A size _ _, fun row hrow => cutoutGrid_row_length A size _ _ row hrow⟩

/-! ## Claim theorems -/

/-- C1: for every raster with height and width at least 1, every positive
odd size and every finite center, every cell of the returned Cutout whose
position maps (through the rounded center and the half = (size - 1) / 2
window offset) to a valid raster index equals that raster sample exactly,
and every other cell is the sentinel; a window that misses the raster
entirely therefore gives an all-sentinel Cutout. -/
theorem cutout_elementwise_exact (A : Raster) (size : ℕ) (qx qy : ℚ) (r c : ℕ)
    (hh : 1 ≤ A.height) (hw : 1 ≤ A.width) (hodd : size % 2 = 1)
    (hr : r < size) (hc : c < size) :
    ∃ g, makeMultipleCutouts A [(.finite qx, .finite qy)] (size : ℤ) = .ok [g] ∧
      gridEntry g r c = some (
        if 0 ≤ pyRound qy - ((size : ℤ) - 1) / 2 + r ∧
           pyRound qy - ((size : ℤ) - 1) / 2 + r < A.height ∧
           0 ≤ pyRound qx - ((size : ℤ) - 1) / 2 + c ∧
           pyRound qx - ((size : ℤ) - 1) / 2 + c < A.width then
          some (A.data (pyRound qy - ((size : ℤ) - 1) / 2 + r).toNat
                       (pyRound qx - ((size : ℤ) - 1) / 2 + c).toNat)
        else none) := by
  have hhalf : ((size : ℤ) - 1) / 2 = (size : ℤ) / 2 := by omega
  refine ⟨cutoutGrid A size (pyRound qx) (pyRound qy), ?_, ?_⟩
  · simp [makeMultipleCutouts, mapExcept, processCenter_finite, Int.toNat_natCast,
      show ¬((size : ℤ) < 0) by omega]
  · rw [cutoutGrid_entry _ _ _ _ _ _ hr hc, cutoutEntry_char _ _ _ _ _ _ hr hc, hhalf]

theorem cutout_elementwise_exact_witness :
    1 ≤ raster5.height ∧ 1 ≤ raster5.width ∧ 3 % 2 = 1 ∧ 1 < 3 ∧ 2 < 3 ∧
    ∃ g, makeMultipleCutouts raster5 [(.finite 0, .finite 0)] ((3 : ℕ) : ℤ) = .ok [g] ∧
      gridEntry g 1 2 = some (
        if 0 ≤ pyRound 0 - ((3 : ℤ) - 1) / 2 + (1 : ℕ) ∧
           pyRound 0 - ((3 : ℤ) - 1) / 2 + (1 : ℕ) < raster5.height ∧
           0 ≤ pyRound 0 - ((3 : ℤ) - 1) / 2 + (2 : ℕ) ∧
           pyRound 0 - ((3 : ℤ) - 1) / 2 + (2 : ℕ) < raster5.width then
          some (raster5.data (pyRound 0 - ((3 : ℤ) - 1) / 2 + (1 : ℕ)).toNat
                             (pyRound 0 - ((3 : ℤ) - 1) / 2 + (2 : ℕ)).toNat)
        else none) :=
  ⟨by decide, by decide, by decide, by decide, by decide,
    cutout_elementwise_exact raster5 3 0 0 1 2 (by decide) (by decide) (by decide)
      (by decide) (by decide)⟩

/-- C2: for every raster, every positive odd size and every sequence of
finite centers, the batch succeeds with exactly one Cutout per center and
every Cutout is exactly size x size. -/
theorem batch_shape_preserved (A : Raster) (size : ℕ) (centers : List (PyFloat × PyFloat))
    (hodd : size % 2 = 1)
    (hfin : ∀ p ∈ centers, p.1.isFinite = true ∧ p.2.isFinite = true) :
    ∃ batch, makeMultipleCutouts A centers (size : ℤ) = .ok batch ∧
      batch.length = centers.length ∧
      ∀ g ∈ batch, g.length = size ∧ ∀ row ∈ g, row.length = size :=
  makeMultiple_ok_shapes A size centers hfin

theorem batch_shape_preserved_witness :
    3 % 2 = 1 ∧
    ∃ batch,
      makeMultipleCutouts raster5 [(.finite 0, .finite 0), (.finite 2, .finite 2)] ((3 : ℕ) : ℤ) =
        .ok batch ∧
      batch.length = [((.finite 0 : PyFloat), (.finite 0 : PyFloat)),
        ((.finite 2 : PyFloat), (.finite 2 : PyFloat))].length ∧
      ∀ g ∈ batch, g.length = 3 ∧ ∀ row ∈ g, row.length = 3 :=
  ⟨by decide, batch_shape_preserved raster5 3 _ (by decide) (by decide)⟩

/-- C5: for every raster with height and width at least 1, every positive
odd size and every finite center, the extraction does not fail, every
non-sentinel cell is read from a raster index inside bounds, and the
Cutout written is exactly the size x size grid. -/
theorem extraction_safe (A : Raster) (size : ℕ) (qx qy : ℚ)
    (hh : 1 ≤ A.height) (hw : 1 ≤ A.width) (hodd : size % 2 = 1) :
    processCenter A (size : ℤ) (.finite qx, .finite qy) =
      .ok (cutoutGrid A size (pyRound qx) (pyRound qy)) ∧
    (cutoutGrid A size (pyRound qx) (pyRound qy)).length = size ∧
    (∀ row ∈ cutoutGrid A size (pyRound qx) (pyRound qy), row.length = size) ∧
    ∀ r c : ℕ, r < size → c < size →
      cutoutEntry A size (pyRound qx) (pyRound qy) r c = none ∨
      ∃ i j : ℕ, i < A.height ∧ j < A.width ∧
        cutoutEntry A size (pyRound qx) (pyRound qy) r c = some (A.data i j) := by
  refine ⟨?_, cutoutGrid_length A size _ _,
    fun row h => cutoutGrid_row_length A size _ _ row h, ?_⟩
  · rw [processCenter_finite, if_neg (by omega), Int.toNat_natCast]
  · intro r c hr hc
    rw [cutoutEntry_char A size _ _ r c hr hc]
    split_ifs with h
    · right
      refine ⟨_, _, ?_, ?_, rfl⟩ <;> omega
    · left; rfl

theorem extraction_safe_witness :
    1 ≤ raster5.height ∧ 1 ≤ raster5.width ∧ 3 % 2 = 1 ∧
    (processCenter raster5 ((3 : ℕ) : ℤ) (.finite (-1000), .finite (-1000)) =
      .ok (cutoutGrid raster5 3 (pyRound (-1000)) (pyRound (-1000))) ∧
    (cutoutGrid raster5 3 (pyRound (-1000)) (pyRound (-1000))).length = 3 ∧
    (∀ row ∈ cutoutGrid raster5 3 (pyRound (-1000)) (pyRound (-1000)), row.length = 3) ∧
    ∀ r c : ℕ, r < 3 → c < 3 →
      cutoutEntry raster5 3 (pyRound (-1000)) (pyRound (-1000)) r c = none ∨
      ∃ i j : ℕ, i < raster5.height ∧ j < raster5.width ∧
        cutoutEntry raster5 3 (pyRound (-1000)) (pyRound (-1000)) r c =
          some (raster5.data i j)) :=
  ⟨by decide, by decide, by decide,
    extraction_safe raster5 3 (-1000) (-1000) (by decide) (by decide) (by decide)⟩

/-- C6: on the 5x5 raster of values 0..24 row-major with size 3, the
center (0, 0) gives a Cutout whose row 0 and column 0 (the positions that
map to raster index -1) are sentinel and whose remaining 2x2 block is
[[0, 1], [5, 6]] in the opposite corner; the center (2, 2) gives the
middle 3x3 block with no sentinel. -/
theorem corner_scenario_concrete :
    makeMultipleCutouts raster5 [(.finite 0, .finite 0)] 3 =
      .ok [[[none, none, none], [none, some 0, some 1], [none, some 5, some 6]]] ∧
    makeMultipleCutouts raster5 [(.finite 2, .finite 2)] 3 =
      .ok [[[some 6, some 7, some 8], [some 11, some 12, some 13],
            [some 16, some 17, some 18]]] :=
  ⟨rfl, rfl⟩

/-- C3 counterexample: the claim says an even or non-positive size and a
zero-dimension raster are rejected as a hard failure for the whole call,
but the code performs no such validation: an even size, a size of zero
and a zero-row raster all return a successful batch. -/
theorem no_precondition_rejection_cex :
    (makeMultipleCutouts raster5 [(.finite 2, .finite 2)] 2).isOk = true ∧
    (makeMultipleCutouts raster5 [(.finite 2, .finite 2)] 0).isOk = true ∧
    (makeMultipleCutouts rasterZeroRows [(.finite 2, .finite 2)] 3).isOk = true := by
  decide

/-- C3 (amended): the code performs no precondition validation.  With
finite centers, any nonnegative size (even, odd or zero) and any raster,
including one with a zero dimension, produces a full batch; a negative
size fails, but only from the first cutout allocation inside the loop, so
the call with an empty center list succeeds even then, and the failure is
the allocation ValueError rather than an upfront rejection. -/
theorem no_precondition_validation (A : Raster) (size : ℤ)
    (centers : List (PyFloat × PyFloat))
    (hfin : ∀ p ∈ centers, p.1.isFinite = true ∧ p.2.isFinite = true) :
    (0 ≤ size → ∃ batch, makeMultipleCutouts A centers size = .ok batch ∧
      batch.length = centers.length) ∧
    (size < 0 → centers = [] → makeMultipleCutouts A centers size = .ok []) ∧
    (size < 0 → centers ≠ [] →
      makeMultipleCutouts A centers size = .error "negative dimensions are not allowed") := by
  refine ⟨?_, ?_, ?_⟩
  · intro hs
    obtain ⟨batch, h1, h2, -⟩ :=
      makeMultiple_ok_shapes A size.toNat centers hfin
    rw [Int.toNat_of_nonneg hs] at h1
    exact ⟨batch, h1, h2⟩
  · intro _ h
    subst h
    rfl
  · intro hneg hne
    cases centers with
    | nil => exact absurd rfl hne
    | cons p rest =>
      have h1 := processCenter_negSize A size p
        (hfin p (List.mem_cons_self p rest)).1 (hfin p (List.mem_cons_self p rest)).2 hneg
      show mapExcept _ (p :: rest) = _
      simp [mapExcept, h1]

theorem no_precondition_validation_witness :
    ((0 : ℤ) ≤ 2 ∧
      ∃ batch, makeMultipleCutouts raster5 [(.finite 2, .finite 2)] 2 = .ok batch ∧
        batch.length = [((.finite 2 : PyFloat), (.finite 2 : PyFloat))].length) ∧
    (-3 : ℤ) < 0 ∧
    makeMultipleCutouts raster5 [(.finite 2, .finite 2)] (-3) =
      .error "negative dimensions are not allowed" :=
  ⟨⟨by decide, (no_precondition_validation raster5 2 _ (by decide)).1 (by decide)⟩,
    by decide,
    (no_precondition_validation raster5 (-3) [(.finite 2, .finite 2)] (by decide)).2.2
      (by decide) (by decide)⟩

/-- C4 counterexample: a NaN center coordinate does not yield an
all-sentinel Cutout with the remaining centers still processed; the whole
batch call fails and the second (fully valid) center is never reached. -/
theorem nonfinite_center_cex :
    makeMultipleCutouts raster5 [(.nan, .finite 0), (.finite 2, .finite 2)] 3 =
      .error "cannot convert float NaN to integer" := rfl

/-- C4 (amended): any center with a non-finite coordinate makes the whole
batch call fail (int(round(x)) raises on NaN and infinity); no batch is
returned and the other centers are not processed into a result. -/
theorem nonfinite_center_fails_batch (A : Raster) (size : ℤ)
    (centers : List (PyFloat × PyFloat))
    (h : ∃ p ∈ centers, p.1.isFinite = false ∨ p.2.isFinite = false) :
    ∃ e, makeMultipleCutouts A centers size = .error e := by
  apply mapExcept_error_of
  obtain ⟨p, hp, hnf⟩ := h
  exact ⟨p, hp, processCenter_nonfinite A size p hnf⟩

theorem nonfinite_center_fails_batch_witness :
    (∃ p ∈ [((.inf : PyFloat), (.finite 0 : PyFloat))],
      p.1.isFinite = false ∨ p.2.isFinite = false) ∧
    ∃ e, makeMultipleCutouts raster5 [(.inf, .finite 0)] 3 = .error e :=
  ⟨by decide, nonfinite_center_fails_batch raster5 3 _ (by decide)⟩

/-- C7: for every positive odd size and every finite center, the
cutout-local rectangle (after the numpy view clamp) and the raster
overlap rectangle have identical shapes on both axes, so the defensive
re-clamp to the smaller of the two shapes never changes which elements
are copied: the clamped copy equals the unclamped copy cell for cell. -/
theorem defensive_clamp_noop (A : Raster) (size : ℕ) (qx qy : ℚ)
    (hodd : size % 2 = 1) :
    (∀ r c : ℕ, cutoutEntry A size (pyRound qx) (pyRound qy) r c =
      cutoutEntryNoMinClamp A size (pyRound qx) (pyRound qy) r c) ∧
    (let half : ℤ := (size : ℤ) / 2
     let xi : ℤ := pyRound qx
     let yi : ℤ := pyRound qy
     let x_start : ℤ := max 0 (xi - half)
     let x_end : ℤ := min (A.width : ℤ) (xi + half + 1)
     let y_start : ℤ := max 0 (yi - half)
     let y_end : ℤ := min (A.height : ℤ) (yi + half + 1)
     let cutout_x_start : ℤ := max 0 (half - xi)
     let cutout_x_end : ℤ := cutout_x_start + (x_end - x_start)
     let cutout_y_start : ℤ := max 0 (half - yi)
     let cutout_y_end : ℤ := cutout_y_start + (y_end - y_start)
     x_end > x_start ∧ y_end > y_start →
       min cutout_y_end (size : ℤ) - min cutout_y_start (size : ℤ) = y_end - y_start ∧
       min cutout_x_end (size : ℤ) - min cutout_x_start (size : ℤ) = x_end - x_start) := by
  constructor
  · intro r c
    exact cutoutEntry_eq_noMinClamp A size hodd _ _ r c
  · dsimp only
    omega

theorem defensive_clamp_noop_witness :
    3 % 2 = 1 ∧
    cutoutEntry raster5 3 (pyRound 0) (pyRound 0) 1 2 =
      cutoutEntryNoMinClamp raster5 3 (pyRound 0) (pyRound 0) 1 2 :=
  ⟨by decide, (defensive_clamp_noop raster5 3 0 0 (by decide)).1 1 2⟩

/-- C8: the rounding of a fractional center coordinate is round half to
even on each axis: the rounded value is always within one half of the
coordinate (hence a nearest integer), an exact half-integer k + 1/2 goes
to k when k is even and to k + 1 when k is odd (2.5 rounds to 2, 3.5
rounds to 4), and the extractor applies this single rule to both the x
and the y coordinate. -/
theorem rounding_half_to_even :
    (∀ q : ℚ, |q - (pyRound q : ℚ)| ≤ 1/2) ∧
    (∀ k : ℤ, pyRound ((k : ℚ) + 1/2) = if k % 2 = 0 then k else k + 1) ∧
    pyRound ((2 : ℚ) + 1/2) = 2 ∧
    pyRound ((3 : ℚ) + 1/2) = 4 ∧
    (∀ (A : Raster) (size : ℤ) (qx qy : ℚ), 0 ≤ size →
      processCenter A size (.finite qx, .finite qy) =
        .ok (cutoutGrid A size.toNat (pyRound qx) (pyRound qy))) := by
  refine ⟨pyRound_nearest, pyRound_tie, ?_, ?_, ?_⟩
  · simpa using pyRound_tie 2
  · simpa using pyRound_tie 3
  · intro A size qx qy hs
    exact processCenter_ok A size (.finite qx, .finite qy) rfl rfl hs

theorem rounding_half_to_even_witness :
    |(Rat.divInt 5 2 : ℚ) - (pyRound (Rat.divInt 5 2) : ℚ)| ≤ 1/2 ∧
    pyRound (((7 : ℤ) : ℚ) + 1/2) = (if (7 : ℤ) % 2 = 0 then (7 : ℤ) else 7 + 1) ∧
    (0 : ℤ) ≤ 3 ∧
    processCenter raster5 3 (.finite 1, .finite 1) =
      .ok (cutoutGrid raster5 (3 : ℤ).toNat (pyRound 1) (pyRound 1)) :=
  ⟨rounding_half_to_even.1 (Rat.divInt 5 2), rounding_half_to_even.2.1 7, by decide,
    rounding_half_to_even.2.2.2.2 raster5 3 1 1 (by decide)⟩

/-- C9: each output Cutout is a function of the raster, the size and its
own center alone: the batch equals the input list mapped through one
fixed per-center function, so output order equals input order and
permuting the inputs permutes the outputs identically. -/
theorem output_pointwise_of_input (A : Raster) (size : ℤ)
    (centers : List (PyFloat × PyFloat)) (hs : 0 ≤ size)
    (hfin : ∀ p ∈ centers, p.1.isFinite = true ∧ p.2.isFinite = true) :
    makeMultipleCutouts A centers size =
      .ok (centers.map fun p => cutoutGrid A size.toNat (pyRoundF p.1) (pyRoundF p.2)) ∧
    ∀ centers₂ : List (PyFloat × PyFloat), centers₂.Perm centers →
      makeMultipleCutouts A centers₂ size =
        .ok (centers₂.map fun p => cutoutGrid A size.toNat (pyRoundF p.1) (pyRoundF p.2)) ∧
      (centers₂.map fun p => cutoutGrid A size.toNat (pyRoundF p.1) (pyRoundF p.2)).Perm
        (centers.map fun p => cutoutGrid A size.toNat (pyRoundF p.1) (pyRoundF p.2)) := by
  have hmap : ∀ l : List (PyFloat × PyFloat),
      (∀ p ∈ l, p.1.isFinite = true ∧ p.2.isFinite = true) →
      makeMultipleCutouts A l size =
        .ok (l.map fun p => cutoutGrid A size.toNat (pyRoundF p.1) (pyRoundF p.2)) :=
    fun l hl => mapExcept_ok_of _ _ l fun p hp =>
      processCenter_ok A size p (hl p hp).1 (hl p hp).2 hs
  exact ⟨hmap centers hfin, fun centers₂ hperm =>
    ⟨hmap centers₂ fun p hp => hfin p (hperm.subset hp), hperm.map _⟩⟩

theorem output_pointwise_of_input_witness :
    (0 : ℤ) ≤ 3 ∧
    makeMultipleCutouts raster5 [(.finite 0, .finite 0), (.finite 2, .finite 2)] 3 =
      .ok ([(.finite 0, .finite 0), (.finite 2, .finite 2)].map fun p =>
        cutoutGrid raster5 (3 : ℤ).toNat (pyRoundF p.1) (pyRoundF p.2)) ∧
    makeMultipleCutouts raster5 [(.finite 2, .finite 2), (.finite 0, .finite 0)] 3 =
      .ok ([(.finite 2, .finite 2), (.finite 0, .finite 0)].map fun p =>
        cutoutGrid raster5 (3 : ℤ).toNat (pyRoundF p.1) (pyRoundF p.2)) :=
  ⟨by decide,
    (output_pointwise_of_input raster5 3 _ (by decide) (by decide)).1,
    ((output_pointwise_of_input raster5 3 [(.finite 0, .finite 0), (.finite 2, .finite 2)]
      (by decide) (by decide)).2 _ (by decide)).1⟩

/-- C10: for an even size of at least 2 the loop still runs without
failing: finite centers give one exactly size x size Cutout each, the raw
window extent with half = size / 2 is size + 1 pixels wide, and the
clamped copy still places every cell at its spec position (raster index
offset by half), the extra row and column being truncated. -/
theorem even_size_accepted (A : Raster) (size : ℕ)
    (centers : List (PyFloat × PyFloat))
    (heven : size % 2 = 0) (h2 : 2 ≤ size)
    (hfin : ∀ p ∈ centers, p.1.isFinite = true ∧ p.2.isFinite = true) :
    (∃ batch, makeMultipleCutouts A centers (size : ℤ) = .ok batch ∧
      batch.length = centers.length ∧
      ∀ g ∈ batch, g.length = size ∧ ∀ row ∈ g, row.length = size) ∧
    (∀ xi : ℤ, (xi + (size : ℤ) / 2 + 1) - (xi - (size : ℤ) / 2) = (size : ℤ) + 1) ∧
    (∀ (xi yi : ℤ) (r c : ℕ), r < size → c < size →
      cutoutEntry A size xi yi r c =
        if 0 ≤ yi - (size : ℤ) / 2 + r ∧ yi - (size : ℤ) / 2 + r < A.height ∧
           0 ≤ xi - (size : ℤ) / 2 + c ∧ xi - (size : ℤ) / 2 + c < A.width then
          some (A.data (yi - (size : ℤ) / 2 + r).toNat (xi - (size : ℤ) / 2 + c).toNat)
        else none) :=
  ⟨makeMultiple_ok_shapes A size centers hfin,
    fun xi => by omega,
    fun xi yi r c hr hc => cutoutEntry_char A size xi yi r c hr hc⟩

theorem even_size_accepted_witness :
    4 % 2 = 0 ∧ 2 ≤ 4 ∧
    ∃ batch, makeMultipleCutouts raster5 [(.finite 2, .finite 2)] ((4 : ℕ) : ℤ) = .ok batch ∧
      batch.length = [((.finite 2 : PyFloat), (.finite 2 : PyFloat))].length ∧
      ∀ g ∈ batch, g.length = 4 ∧ ∀ row ∈ g, row.length = 4 :=
  ⟨by decide, by decide,
    (even_size_accepted raster5 4 _ (by decide) (by decide) (by decide)).1⟩

